import Mathlib

/-!
Verification development for the GCS video rendering fleet-orchestration
subsystem: a shallow embedding of the job-leasing worker
(production-pipeline/cloud-infrastructure/cloud_worker.py) and of the
autoscaler (gcs-video-automations-v1-backup/cloud-infrastructure/autoscaler.py),
with theorems settling the specification claims.

Timestamps are modelled as integers (seconds).  Python floats that only
carry utilization percentages and efficiency factors are modelled as ℚ.
-/

/-! ### Data model: the per-job objects stored in the bucket -/

/-- Body of jobs/{channel}/{job_id}/lease.lock as written by claim_job
and renew_lease. -/
structure LeaseData where
  worker_id : String
  claimed_at : Int
  expires_at : Int
deriving DecidableEq, Repr

/-- Relevant fields of jobs/{channel}/{job_id}/status.json (the JobRecord). -/
structure StatusData where
  status : String
  worker_id : Option String
  started_at : Option Int
  completed_at : Option Int
  error : Option String
deriving DecidableEq, Repr

/-- The store objects of one job: the lease object (present or absent) and
the status object.  The lease object existing is exactly the condition the
GCS precondition if_generation_match=0 tests. -/
structure JobStore where
  lease : Option LeaseData
  status : StatusData
deriving DecidableEq, Repr

/-- A freshly submitted JobRecord, as an external submitter creates it. -/
def pendingMeta : StatusData :=
  { status := "pending", worker_id := none, started_at := none
    completed_at := none, error := none }

/-- LEASE_RENEWAL_INTERVAL = 60 seconds (cloud_worker.py). -/
def LEASE_RENEWAL_INTERVAL : Int := 60

/-- MAX_PARALLEL_FFMPEG = 3 (cloud_worker.py). -/
def MAX_PARALLEL_FFMPEG : Nat := 3

/-- GPU_UTILIZATION_THRESHOLD = 70.0 (cloud_worker.py). -/
def GPU_UTILIZATION_THRESHOLD : ℚ := 70

/-! ### GCSJobLeaser.claim_job

The Python code creates the lease object with if_generation_match=0: the
upload raises if an object already exists at the path, whatever its
content, and the except branch returns False without reaching the status
write.  On success it overwrites the status object to running with
expires_at = now + 2 * LEASE_RENEWAL_INTERVAL in the lease.  Note the code
matches only on the existence of the lease object: it never reads the
stored expires_at. -/

/-- GCSJobLeaser.claim_job: returns whether the claim succeeded, and the
resulting state of the job's store objects.  meta is the claimant's cached
job.metadata from the scan. -/
def claim_job (now : Int) (wid : String) (meta : StatusData) (s : JobStore) :
    Bool × JobStore :=
  match s.lease with
  | some _ => (false, s)
  | none =>
      (true,
        { lease := some
            { worker_id := wid, claimed_at := now
              expires_at := now + LEASE_RENEWAL_INTERVAL * 2 }
          status := { meta with status := "running", worker_id := some wid
                                started_at := some now } })

/-- Sequential serialization of N workers racing claim_job on one job: the
store's atomic create-if-absent resolves the race into some order of
attempts.  Returns each worker's claim_job result and the final store. -/
def claimRace (now : Int) (meta : StatusData) (workers : List String)
    (s : JobStore) : List Bool × JobStore :=
  match workers with
  | [] => ([], s)
  | w :: ws =>
      let r := claim_job now w meta s
      let rest := claimRace now meta ws r.2
      (r.1 :: rest.1, rest.2)

/-! ### GCSJobLeaser.release_job

The Python code deletes the lease object and then unconditionally writes
the status object to pending (worker_id None, started_at None), building
the written body from the job's cached metadata.  There is no branch on
the job's current status. -/

/-- Status body written by release_job. -/
def release_status (meta : StatusData) : StatusData :=
  { meta with status := "pending", worker_id := none, started_at := none }

/-- GCSJobLeaser.release_job: delete the lease object, overwrite the
status object back to pending. -/
def release_job (meta : StatusData) (_s : JobStore) : JobStore :=
  { lease := none, status := release_status meta }

/-- Final status write of GPUWorker.render_video_job on success: the
status object is overwritten to completed. -/
def render_complete_status (meta : StatusData) (now : Int) : StatusData :=
  { meta with status := "completed", completed_at := some now }

/-- One successful pass of GPUWorker.run for one job: claim it, render it
to completion (render_video_job ends by writing status completed), then,
because render_video_job returned True, call release_job. -/
def run_success_cycle (now : Int) (wid : String) (meta : StatusData)
    (s : JobStore) : JobStore :=
  let c := claim_job now wid meta s
  if c.1 then
    release_job meta { c.2 with status := render_complete_status meta now }
  else s

/-! ### In-process worker state: lease renewal versus the render loop

GCSJobLeaser.start_lease_renewal runs a loop that, while the leaser holds
a job, calls renew_lease and on failure calls release_job (which also sets
current_job to None).  It touches no other flag.  GPUWorker.render_video_job
checks exactly one condition before starting each unit: whether GPUWorker's
own shutdown_event is set. -/

/-- In-process flags shared between the renewal activity and the render
loop: GPUWorker.shutdown_event and GCSJobLeaser.current_job. -/
structure WorkerState where
  shutdown_event : Bool
  current_job : Option String
deriving DecidableEq, Repr

/-- One iteration of the renewal_loop body in start_lease_renewal: if a
job is held and renew_lease fails, release it (current_job becomes None).
The worker's shutdown_event is not touched. -/
def renewal_loop_step (renew_ok : Bool) (st : WorkerState) : WorkerState :=
  if st.current_job.isSome && !renew_ok then { st with current_job := none }
  else st

/-- The only gate render_video_job evaluates before rendering the next
unit: it returns early iff GPUWorker.shutdown_event is set. -/
def render_loop_starts_unit (st : WorkerState) : Bool :=
  !st.shutdown_event

/-! ### GPUWorker.can_add_parallel_process and the render-unit loop -/

/-- GPUWorker.can_add_parallel_process: true iff current GPU utilization
is below GPU_UTILIZATION_THRESHOLD and fewer than MAX_PARALLEL_FFMPEG
processes are still running. -/
def can_add_parallel_process (gpu_util : ℚ) (active_count : Nat) : Bool :=
  decide (gpu_util < GPU_UTILIZATION_THRESHOLD) &&
    decide (active_count < MAX_PARALLEL_FFMPEG)

/-- Clip file name used by render_video_job: clip_{i:03d}.mp4. -/
def clipName (i : Nat) : String :=
  "clip_" ++ (if i < 10 then "00" else if i < 100 then "0" else "") ++
    toString i ++ ".mp4"

/-- Unit loop of render_video_job, from index i with the given number of
iterations remaining: each iteration first checks the shutdown event (and
aborts the whole loop if set), then renders unit i exactly when its clip
name is not among the existing clips.  shutdownAt i is the state of
GPUWorker.shutdown_event when iteration i runs.  Returns the list of unit
indices for which the renderer is invoked. -/
def renderLoopAux (shutdownAt : Nat → Bool) (existing : List String) :
    Nat → Nat → List Nat
  | _, 0 => []
  | i, remaining + 1 =>
      if shutdownAt i then []
      else if existing.contains (clipName i) then
        renderLoopAux shutdownAt existing (i + 1) remaining
      else i :: renderLoopAux shutdownAt existing (i + 1) remaining

/-- Units rendered by render_video_job's loop for i in range(total_clips),
resuming over the clips already present in the bucket. -/
def render_video_job_rendered (shutdownAt : Nat → Bool)
    (existing : List String) (total_clips : Nat) : List Nat :=
  renderLoopAux shutdownAt existing 0 total_clips

/-! ### GPU telemetry: both get_gpu_utilization functions

GPUWorker.get_gpu_utilization runs nvidia-smi; any exception (including
the 10 s timeout and unparsable floats) is caught and 0.0 returned, a
nonzero return code falls through to 0.0, and an empty reading list
yields 0.0.  MIGController.get_gpu_utilization (autoscaler) lists the
instances of the managed group and averages per-instance averages; a
failed listing, an empty instance list, per-instance failures leaving no
valid instance, or any exception all yield 0.0. -/

/-- Outcome of the worker's single nvidia-smi query: an exception, or a
return code together with the parsed utilization values. -/
inductive NvidiaSmiOutcome where
  | failure : NvidiaSmiOutcome
  | output : Int → List ℚ → NvidiaSmiOutcome
deriving DecidableEq, Repr

/-- GPUWorker.get_gpu_utilization. -/
def worker_get_gpu_utilization : NvidiaSmiOutcome → ℚ
  | .failure => 0
  | .output rc utils =>
      if rc = 0 then
        if utils.isEmpty then 0 else utils.sum / (utils.length : ℚ)
      else 0

/-- Per-instance result of the autoscaler's ssh + nvidia-smi query: an
exception, or the parsed utilization values of that instance. -/
inductive InstanceResult where
  | err : InstanceResult
  | ok : List ℚ → InstanceResult
deriving DecidableEq, Repr

/-- Outcome of the autoscaler's telemetry sweep: an exception, a failed
instance listing, or the list of per-instance query results. -/
inductive MigTelemetry where
  | failure : MigTelemetry
  | listFailed : MigTelemetry
  | instances : List InstanceResult → MigTelemetry
deriving DecidableEq, Repr

/-- Accumulation step of MIGController.get_gpu_utilization: an instance
contributes its average and counts as valid only if its query succeeded
with a nonempty reading list. -/
def migAccum (acc : ℚ × Nat) (r : InstanceResult) : ℚ × Nat :=
  match r with
  | .err => acc
  | .ok utils =>
      if utils.isEmpty then acc
      else (acc.1 + utils.sum / (utils.length : ℚ), acc.2 + 1)

/-- MIGController.get_gpu_utilization. -/
def mig_get_gpu_utilization : MigTelemetry → ℚ
  | .failure => 0
  | .listFailed => 0
  | .instances insts =>
      if insts.isEmpty then 0
      else
        let tv := insts.foldl migAccum (0, 0)
        if tv.2 > 0 then tv.1 / (tv.2 : ℚ) else 0

/-! ### IntelligentAutoscaler (autoscaler.py)

Configuration constants from the top of autoscaler.py.  Instance counts
are Python ints, modelled as ℤ. -/

/-- MIN_INSTANCES = 1. -/
def MIN_INSTANCES : Int := 1

/-- MAX_INSTANCES = 20. -/
def MAX_INSTANCES : Int := 20

/-- JOBS_PER_GPU = 200. -/
def JOBS_PER_GPU : Int := 200

/-- GPU_EFFICIENCY = 0.5. -/
def GPU_EFFICIENCY : ℚ := 0.5

/-- SCALE_DOWN_DELAY = 600 seconds. -/
def SCALE_DOWN_DELAY : Int := 600

/-- Cooldown test of calculate_desired_instances: last_scale_down is None
or now - last_scale_down exceeds SCALE_DOWN_DELAY. -/
def cooldown_elapsed (last_scale_down : Option Int) (now : Int) : Bool :=
  match last_scale_down with
  | none => true
  | some t => decide (now - t > SCALE_DOWN_DELAY)

/-- IntelligentAutoscaler.calculate_desired_instances.  Python computes
base_instances = max(0, int(pending / (JOBS_PER_GPU * GPU_EFFICIENCY))):
int() truncates toward zero, which equals the floor on the nonnegative
quotients arising from a nonnegative pending count; on a negative
quotient int() and floor can differ by one but both are negative there,
so max(0, _) sends either to 0.  Bounds are then applied as desired =
max(MIN_INSTANCES, min(MAX_INSTANCES, base)), and when the queue is
nearly empty and utilization low and the scale-down cooldown has elapsed,
desired = min(desired, 1). -/
def calculate_desired_instances (pending_jobs : Int) (gpu_util : ℚ)
    (last_scale_down : Option Int) (now : Int) : Int :=
  let base_instances : Int :=
    max 0 ⌊(pending_jobs : ℚ) / ((JOBS_PER_GPU : ℚ) * GPU_EFFICIENCY)⌋
  let desired : Int := max MIN_INSTANCES (min MAX_INSTANCES base_instances)
  if pending_jobs < 5 ∧ gpu_util < 30 then
    if cooldown_elapsed last_scale_down now then min desired 1 else desired
  else desired

/-- IntelligentAutoscaler.should_scale. -/
def should_scale (current desired : Int) (gpu_util : ℚ) : Bool :=
  if 2 ≤ |current - desired| then true
  else if gpu_util > 80 ∧ desired > current then true
  else if gpu_util < 20 ∧ desired < current then true
  else false

/-- One pass of IntelligentAutoscaler.run_scaling_cycle, reduced to the
resize it issues: compute desired from the observed pending count and
utilization, and if should_scale holds, execute_scaling issues a resize
to desired unless the fleet already has that size. -/
def run_scaling_cycle (pending : Int) (current : Int) (gpu_util : ℚ)
    (last_scale_down : Option Int) (now : Int) : Option Int :=
  let desired := calculate_desired_instances pending gpu_util last_scale_down now
  if should_scale current desired gpu_util then
    if current = desired then none else some desired
  else none

/-! ### Spec-side formulas for the desired-instance count -/

/-- Modelled from the claim words for the desired-instance formula:
clamp(ceil(pending / (jobs_per_instance * efficiency)), MIN_INSTANCES,
MAX_INSTANCES), lowered further to MIN_INSTANCES only when pending and
utilization are below the low thresholds and the scale-down cooldown has
elapsed. -/
def compute_desired_claim (pending : Int) (gpu_util : ℚ)
    (last_scale_down : Option Int) (now : Int) : Int :=
  let desired : Int :=
    min MAX_INSTANCES (max MIN_INSTANCES
      ⌈(pending : ℚ) / ((JOBS_PER_GPU : ℚ) * GPU_EFFICIENCY)⌉)
  if pending < 5 ∧ gpu_util < 30 ∧ cooldown_elapsed last_scale_down now then
    min desired MIN_INSTANCES
  else desired

/-- Amended formula: identical to the claim's except that the base is the
floor (Python int() truncation) of pending / (jobs_per_instance *
efficiency) rather than its ceiling. -/
def compute_desired_amended (pending : Int) (gpu_util : ℚ)
    (last_scale_down : Option Int) (now : Int) : Int :=
  let desired : Int :=
    min MAX_INSTANCES (max MIN_INSTANCES
      ⌊(pending : ℚ) / ((JOBS_PER_GPU : ℚ) * GPU_EFFICIENCY)⌋)
  if pending < 5 ∧ gpu_util < 30 ∧ cooldown_elapsed last_scale_down now then
    min desired MIN_INSTANCES
  else desired

/-- Queue-derived target with bounds applied but without the idle
lowering branch: what calculate_desired_instances computes whenever the
lowering branch does not fire. -/
def clamped_base (pending : Int) : Int :=
  max MIN_INSTANCES (min MAX_INSTANCES
    (max 0 ⌊(pending : ℚ) / ((JOBS_PER_GPU : ℚ) * GPU_EFFICIENCY)⌋))

/-! ### Helper lemmas -/

/-- A claim attempt against an existing lease object fails and leaves
both store objects untouched. -/
theorem claim_job_lease_some (now : Int) (w : String) (meta : StatusData)
    (s : JobStore) (l : LeaseData) (h : s.lease = some l) :
    claim_job now w meta s = (false, s) := by
  unfold claim_job
  rw [h]

/-- Once the lease object exists, a whole sequence of claim attempts all
fail and leave the store untouched. -/
theorem claimRace_lease_some (now : Int) (meta : StatusData)
    (ws : List String) (s : JobStore) (l : LeaseData) (h : s.lease = some l) :
    claimRace now meta ws s = (ws.map (fun _ => false), s) := by
  induction ws with
  | nil => rfl
  | cons w ws ih =>
      simp only [claimRace, claim_job_lease_some now w meta s l h, ih,
        List.map_cons]

/-- An all-false flag list contains no true. -/
theorem count_true_map_false (ws : List String) :
    ((ws.map fun _ => false).count true) = 0 := by
  induction ws with
  | nil => rfl
  | cons w ws ih => simpa [List.count_cons] using ih

/-- A successful claim stores a lease object. -/
theorem claim_job_lease_none (now : Int) (w : String) (meta : StatusData)
    (s : JobStore) (h : s.lease = none) :
    (claim_job now w meta s).2.lease =
      some { worker_id := w, claimed_at := now
             expires_at := now + LEASE_RENEWAL_INTERVAL * 2 } ∧
    (claim_job now w meta s).1 = true := by
  unfold claim_job
  rw [h]
  exact ⟨rfl, rfl⟩

/-- Membership in the shutdown-free unit loop started at index i. -/
theorem renderLoopAux_false_mem (existing : List String) (n : Nat) :
    ∀ i j, (j ∈ renderLoopAux (fun _ => false) existing i n ↔
      i ≤ j ∧ j < i + n ∧ existing.contains (clipName j) = false) := by
  induction n with
  | zero =>
      intro i j
      simp [renderLoopAux]
      omega
  | succ n ih =>
      intro i j
      by_cases hc : existing.contains (clipName i) = true
      · rw [renderLoopAux]
        simp only [Bool.false_eq_true, if_false, hc, if_true, ih]
        constructor
        · rintro ⟨h1, h2, h3⟩
          exact ⟨by omega, by omega, h3⟩
        · rintro ⟨h1, h2, h3⟩
          have hij : j ≠ i := by
            intro e
            rw [e] at h3
            rw [h3] at hc
            simp at hc
          exact ⟨by omega, by omega, h3⟩
      · rw [renderLoopAux]
        simp only [Bool.false_eq_true, if_false, hc, List.mem_cons, ih]
        constructor
        · rintro (rfl | ⟨h1, h2, h3⟩)
          · exact ⟨le_refl j, by omega, by simpa using hc⟩
          · exact ⟨by omega, by omega, h3⟩
        · rintro ⟨h1, h2, h3⟩
          rcases Nat.eq_or_lt_of_le h1 with rfl | h1
          · exact Or.inl rfl
          · exact Or.inr ⟨by omega, by omega, h3⟩

/-- Folding the per-instance accumulator over instances that all errored
leaves the accumulator unchanged. -/
theorem foldl_migAccum_all_err (insts : List InstanceResult)
    (h : ∀ r ∈ insts, r = .err) (acc : ℚ × Nat) :
    insts.foldl migAccum acc = acc := by
  induction insts generalizing acc with
  | nil => rfl
  | cons r rs ih =>
      have hr : r = .err := h r (List.mem_cons_self r rs)
      rw [List.foldl_cons, hr]
      exact ih (fun x hx => h x (List.mem_cons_of_mem r hx)) acc

/-! ### Claim theorems -/

/-- C1: the claim states that a lease whose expires_at has passed is
claimable by a different worker_id.  The code violates it: claim_job
tests only whether the lease object exists (if_generation_match=0) and
never reads expires_at, so at now = 200 a claim by worker-b against
worker-a's lease that expired at 100 returns false and changes nothing,
even though the original holder is not renewing. -/
theorem C1_expired_lease_not_claimable :
    (100 : Int) < 200 ∧ "worker-b" ≠ "worker-a" ∧
    claim_job 200 "worker-b" pendingMeta
      { lease := some { worker_id := "worker-a", claimed_at := 40, expires_at := 100 }
        status := pendingMeta } =
    (false,
      { lease := some { worker_id := "worker-a", claimed_at := 40, expires_at := 100 }
        status := pendingMeta }) := by
  refine ⟨by norm_num, by decide, rfl⟩

/-- C2: among N workers racing claim_job on a job with no lease object,
the first create-if-absent write in the serialization order succeeds and
claim_job returns true for exactly that worker; every later attempt
returns false, and the final store equals the winner's store — the losers
wrote neither the lease nor the JobRecord. -/
theorem C2_exactly_one_claim_wins (now : Int) (meta : StatusData)
    (w : String) (ws : List String) (s : JobStore) (h : s.lease = none) :
    (claimRace now meta (w :: ws) s).1 = true :: ws.map (fun _ => false) ∧
    ((claimRace now meta (w :: ws) s).1.count true = 1) ∧
    (claimRace now meta (w :: ws) s).2 = (claim_job now w meta s).2 := by
  obtain ⟨hl, hb⟩ := claim_job_lease_none now w meta s h
  have hrest := claimRace_lease_some now meta ws (claim_job now w meta s).2 _ hl
  refine ⟨?_, ?_, ?_⟩
  · simp only [claimRace, hrest, hb]
  · simp only [claimRace, hrest, hb, List.count_cons, count_true_map_false]
    rfl
  · simp only [claimRace, hrest]

/-- C2 witness: three workers race a freshly submitted job; exactly the
first succeeds. -/
theorem C2_exactly_one_claim_wins_witness :
    (claimRace 0 pendingMeta ("worker-1" :: ["worker-2", "worker-3"])
        { lease := none, status := pendingMeta }).1 =
      true :: ["worker-2", "worker-3"].map (fun _ => false) ∧
    ((claimRace 0 pendingMeta ("worker-1" :: ["worker-2", "worker-3"])
        { lease := none, status := pendingMeta }).1.count true = 1) ∧
    (claimRace 0 pendingMeta ("worker-1" :: ["worker-2", "worker-3"])
        { lease := none, status := pendingMeta }).2 =
      (claim_job 0 "worker-1" pendingMeta
        { lease := none, status := pendingMeta }).2 :=
  C2_exactly_one_claim_wins 0 pendingMeta "worker-1" ["worker-2", "worker-3"]
    { lease := none, status := pendingMeta } rfl

/-- C3: the claim states that release leaves a terminal status in place
and that a claim-render-complete cycle ends with the JobRecord completed.
The code violates it: render_video_job ends by writing status completed,
but GPUWorker.run then calls release_job, which unconditionally rewrites
the JobRecord to pending, so the full successful cycle ends pending, and
the completed job re-enters the pending queue. -/
theorem C3_release_resets_completed_to_pending :
    ({ lease := none, status := render_complete_status pendingMeta 0 } :
        JobStore).status.status = "completed" ∧
    (release_job pendingMeta
      { lease := none, status := render_complete_status pendingMeta 0 }
      ).status.status = "pending" ∧
    (run_success_cycle 0 "worker-a" pendingMeta
      { lease := none, status := pendingMeta }).status.status = "pending" := by
  exact ⟨rfl, rfl, rfl⟩

/-- C4: the claim states that after a failed renew the render loop starts
no further units.  The code violates it: the renewal loop reacts to a
failed renew_lease by calling release_job (current_job becomes None) and
touches no other flag, while render_video_job's only per-unit gate is
GPUWorker.shutdown_event — so immediately after the failed renew the
render loop still starts the next unit. -/
theorem C4_render_loop_survives_renewal_failure :
    renewal_loop_step false
        { shutdown_event := false, current_job := some "job-1" } =
      { shutdown_event := false, current_job := none } ∧
    render_loop_starts_unit (renewal_loop_step false
      { shutdown_event := false, current_job := some "job-1" }) = true := by
  exact ⟨rfl, rfl⟩

/-- C7: the claim states that each render unit starts only when GPU
utilization is below the threshold and a pool slot is free, re-checked
before every unit.  The code violates it: can_add_parallel_process
implements exactly that gate, but render_video_job's unit loop never
calls it — its output does not depend on utilization or the process pool
at all, so all units start even in states where the gate is false. -/
theorem C7_render_loop_ignores_parallel_gate :
    can_add_parallel_process 90 0 = false ∧
    can_add_parallel_process 0 MAX_PARALLEL_FFMPEG = false ∧
    (∀ u a, can_add_parallel_process u a = true ↔
      (u < GPU_UTILIZATION_THRESHOLD ∧ a < MAX_PARALLEL_FFMPEG)) ∧
    render_video_job_rendered (fun _ => false) [] 3 = [0, 1, 2] := by
  refine ⟨?_, ?_, ?_, by decide⟩
  · norm_num [can_add_parallel_process, GPU_UTILIZATION_THRESHOLD]
  · norm_num [can_add_parallel_process, MAX_PARALLEL_FFMPEG]
  · intro u a
    simp [can_add_parallel_process]

/-- C8: resuming a job invokes the renderer exactly for the unit indices
whose clip is not already present: in general a unit i is rendered iff
i < total and its clip name is absent, and for completed clips 0, 1, 2
out of 5 exactly units 3 and 4 are rendered. -/
theorem C8_resume_skips_completed_units (existing : List String)
    (total i : Nat) :
    (i ∈ render_video_job_rendered (fun _ => false) existing total ↔
      i < total ∧ existing.contains (clipName i) = false) ∧
    render_video_job_rendered (fun _ => false)
      [clipName 0, clipName 1, clipName 2] 5 = [3, 4] := by
  constructor
  · rw [render_video_job_rendered, renderLoopAux_false_mem existing total 0 i]
    simp
  · decide

/-- C5 counterexample: the claimed formula uses the ceiling of
pending / (jobs_per_instance * efficiency), but the code truncates
(int()).  At pending = 150 (quotient 1.5) the code returns 1 while the
claimed clamp-of-ceiling formula gives 2. -/
theorem C5_ceil_formula_counterexample :
    calculate_desired_instances 150 50 none 0 = 1 ∧
    compute_desired_claim 150 50 none 0 = 2 := by
  constructor
  · norm_num [calculate_desired_instances, cooldown_elapsed, MIN_INSTANCES,
      MAX_INSTANCES, JOBS_PER_GPU, GPU_EFFICIENCY, SCALE_DOWN_DELAY]
  · have h : (⌈(3 : ℚ) / 2⌉ : Int) = 2 := by
      rw [Int.ceil_eq_iff]
      norm_num
    norm_num [compute_desired_claim, cooldown_elapsed, MIN_INSTANCES,
      MAX_INSTANCES, JOBS_PER_GPU, GPU_EFFICIENCY, SCALE_DOWN_DELAY, h]

/-- C5 amended: calculate_desired_instances equals
clamp(floor(pending / (jobs_per_instance * efficiency)), MIN_INSTANCES,
MAX_INSTANCES), lowered further to MIN_INSTANCES only when pending and
utilization are below the low thresholds and the scale-down cooldown has
elapsed; the result is never below MIN_INSTANCES (in particular 1, not 0,
at pending = 0 with util = 5) and never above MAX_INSTANCES. -/
theorem C5_desired_instances_floor_formula (pending : Int) (gpu_util : ℚ)
    (lsd : Option Int) (now : Int) :
    calculate_desired_instances pending gpu_util lsd now =
      compute_desired_amended pending gpu_util lsd now ∧
    MIN_INSTANCES ≤ calculate_desired_instances pending gpu_util lsd now ∧
    calculate_desired_instances pending gpu_util lsd now ≤ MAX_INSTANCES ∧
    calculate_desired_instances 0 5 none 0 = MIN_INSTANCES := by
  have hconc : calculate_desired_instances 0 5 none 0 = MIN_INSTANCES := by
    norm_num [calculate_desired_instances, cooldown_elapsed, MIN_INSTANCES,
      MAX_INSTANCES, JOBS_PER_GPU, GPU_EFFICIENCY, SCALE_DOWN_DELAY]
  refine ⟨?_, ?_, ?_, hconc⟩ <;>
  · simp only [calculate_desired_instances, compute_desired_amended,
      MIN_INSTANCES, MAX_INSTANCES]
    generalize ⌊(pending : ℚ) / ((JOBS_PER_GPU : ℚ) * GPU_EFFICIENCY)⌋ = b
    split_ifs <;> first | omega | tauto

/-- C6 counterexample: during the cooldown window (last_scale_down is
now, 0 seconds ago, and 0 < SCALE_DOWN_DELAY) with pending = 4 and
utilization 5 — both below the low thresholds — and 10 running
instances, the scaling cycle still issues a resize to 1, a scale-down:
the cooldown gate sits inside calculate_desired_instances and does not
stop should_scale from acting on the clamped base target. -/
theorem C6_cooldown_scale_down_counterexample :
    (0 : Int) - 0 < SCALE_DOWN_DELAY ∧ (4 : Int) < 5 ∧ (5 : ℚ) < 30 ∧
    run_scaling_cycle 4 10 5 (some 0) 0 = some 1 ∧ (1 : Int) < 10 := by
  refine ⟨by norm_num [SCALE_DOWN_DELAY], by norm_num, by norm_num, ?_,
    by norm_num⟩
  norm_num [run_scaling_cycle, calculate_desired_instances, should_scale,
    cooldown_elapsed, MIN_INSTANCES, MAX_INSTANCES, JOBS_PER_GPU,
    GPU_EFFICIENCY, SCALE_DOWN_DELAY]

/-- C6 amended: while the cooldown has not elapsed, the only thing the
cooldown suppresses is the idle-queue lowering of desired to
MIN_INSTANCES: calculate_desired_instances then always returns the
clamped base target, so scale-downs driven by that target (through the
difference rule or the low-utilization override) still occur. -/
theorem C6_cooldown_suppresses_only_lowering (pending : Int)
    (gpu_util : ℚ) (t now : Int) (h : now - t ≤ SCALE_DOWN_DELAY) :
    calculate_desired_instances pending gpu_util (some t) now =
      clamped_base pending := by
  have hc : cooldown_elapsed (some t) now = false := by
    simp only [cooldown_elapsed, decide_eq_false_iff_not]
    omega
  simp only [calculate_desired_instances, clamped_base, hc]
  split_ifs <;> simp_all

/-- C6 amended witness: the counterexample cycle's inputs satisfy the
cooldown hypothesis, and desired there is the clamped base target. -/
theorem C6_cooldown_suppresses_only_lowering_witness :
    (0 : Int) - 0 ≤ SCALE_DOWN_DELAY ∧
    calculate_desired_instances 4 5 (some 0) 0 = clamped_base 4 :=
  ⟨by norm_num [SCALE_DOWN_DELAY],
    C6_cooldown_suppresses_only_lowering 4 5 0 0
      (by norm_num [SCALE_DOWN_DELAY])⟩

/-- C9: should_scale returns true exactly when the absolute difference
between current and desired is at least 2, or utilization exceeds the
high threshold (80) with desired above current, or utilization is below
the low threshold (20) with desired below current; in particular it is
false at (5, 6, 50) and true at (5, 6, 85). -/
theorem C9_should_scale_characterization (current desired : Int)
    (gpu_util : ℚ) :
    (should_scale current desired gpu_util = true ↔
      2 ≤ |current - desired| ∨ (gpu_util > 80 ∧ desired > current) ∨
        (gpu_util < 20 ∧ desired < current)) ∧
    should_scale 5 6 50 = false ∧ should_scale 5 6 85 = true := by
  refine ⟨?_, by norm_num [should_scale], by norm_num [should_scale]⟩
  unfold should_scale
  split_ifs <;> simp_all

/-- C10: every telemetry failure mode of both get_gpu_utilization
functions — an exception or timeout, a nonzero return code, an empty
reading list, a failed instance listing, no instances, or every
per-instance query failing — yields 0.0 instead of an error, and a 0.0
reading passes the worker's parallelism gate and the scaling policy's
below-low-threshold test. -/
theorem C10_telemetry_failure_reads_as_idle (rc : Int) (utils : List ℚ)
    (insts : List InstanceResult) (hrc : rc ≠ 0)
    (hins : ∀ r ∈ insts, r = InstanceResult.err) :
    worker_get_gpu_utilization .failure = 0 ∧
    worker_get_gpu_utilization (.output rc utils) = 0 ∧
    worker_get_gpu_utilization (.output 0 []) = 0 ∧
    mig_get_gpu_utilization .failure = 0 ∧
    mig_get_gpu_utilization .listFailed = 0 ∧
    mig_get_gpu_utilization (.instances insts) = 0 ∧
    can_add_parallel_process (worker_get_gpu_utilization .failure) 0 = true ∧
    should_scale 2 1 (mig_get_gpu_utilization .failure) = true := by
  refine ⟨rfl, ?_, rfl, rfl, rfl, ?_, ?_, ?_⟩
  · simp [worker_get_gpu_utilization, hrc]
  · by_cases he : insts.isEmpty = true
    · simp [mig_get_gpu_utilization, he]
    · simp [mig_get_gpu_utilization, he, foldl_migAccum_all_err insts hins]
  · norm_num [worker_get_gpu_utilization, can_add_parallel_process,
      GPU_UTILIZATION_THRESHOLD, MAX_PARALLEL_FFMPEG]
  · norm_num [mig_get_gpu_utilization, should_scale]

/-- C10 witness: a concrete outage — nvidia-smi exits with code 1, the
only listed instance errors — reads as an idle fleet. -/
theorem C10_telemetry_failure_reads_as_idle_witness :
    worker_get_gpu_utilization .failure = 0 ∧
    worker_get_gpu_utilization (.output 1 [55]) = 0 ∧
    worker_get_gpu_utilization (.output 0 []) = 0 ∧
    mig_get_gpu_utilization .failure = 0 ∧
    mig_get_gpu_utilization .listFailed = 0 ∧
    mig_get_gpu_utilization (.instances [InstanceResult.err]) = 0 ∧
    can_add_parallel_process (worker_get_gpu_utilization .failure) 0 = true ∧
    should_scale 2 1 (mig_get_gpu_utilization .failure) = true :=
  C10_telemetry_failure_reads_as_idle 1 [55] [InstanceResult.err]
    (by norm_num) (fun r hr => List.mem_singleton.mp hr)
